import Mathlib

/-!
Verification of the django-automated-birthday-scheduler backend.

The development shallowly embeds the repository's data model (myapp/models.py),
serializers (myapp/serializers.py), request handlers (myapp/views.py) and the
periodic birthday job (myapp/tasks.py) as executable Lean definitions, and
proves properties of the embedded operations.

Conventions of the embedding:
* Database rows become Lean structures; foreign keys are stored as primary-key
  numbers (`Nat`), nullable ones as `Option Nat`.  Django compares model
  instances by primary key, so `task.assigned_to != request.user` becomes a
  comparison with `some actor.id`.
* A JSON request body becomes a payload structure whose fields are `Option`s:
  `none` means the key is absent from the body.  A nullable foreign key in a
  body is `Option (Option Nat)`: present-and-null is `some none`.
* Each handler is a function from the acting user, the URL/body arguments and
  the current database to an HTTP status paired with the database after the
  request.  `request.user` of an authenticated request is the `actor` argument.
* `auto_now_add` timestamps are supplied as an explicit `now : Nat` argument.
-/

namespace BirthdayScheduler

/-- Calendar date, used for the `birth_date` `DateField` of models.py. -/
structure Date where
  year : Nat
  month : Nat
  day : Nat
deriving DecidableEq, Repr

/-- models.py `Types.SUPERVISOR` — the role choice "Supervisor".
The source keeps roles as strings (a `CharField` with choices), so the
embedding does too. -/
def Types.SUPERVISOR : String := "Supervisor"

/-- models.py `Types.INTERN` — the role choice "Intern". -/
def Types.INTERN : String := "Intern"

/-- models.py `UserProfile(AbstractUser)`: the inherited concrete columns of
Django's `AbstractUser` (id, password, last_login, is_superuser, first_name,
last_name, is_staff, is_active, date_joined) plus the three declared in
models.py lines 12-14: `role`, `email` (unique, ≤ 50), `username`
(unique, ≤ 20).  Note that models.py does NOT declare a `birth_date`
column on `UserProfile`; the `birth_date` `DateField` sits on `Task`
(models.py line 33). -/
structure UserProfile where
  id : Nat
  password : String
  last_login : Option Nat
  is_superuser : Bool
  first_name : String
  last_name : String
  is_staff : Bool
  is_active : Bool
  date_joined : Nat
  role : String
  email : String
  username : String
deriving DecidableEq, Repr

/-- models.py `Task` (lines 25-33): title (≤ 250), optional description
(≤ 250, blank), `created_at` (`auto_now_add`), optional `due_date`,
`is_completed` (default false), nullable `assigned_to` foreign key with
`on_delete=CASCADE`, nullable `assigned_by` foreign key with
`on_delete=SET_NULL`, and the (misplaced) nullable `birth_date` column. -/
structure Task where
  id : Nat
  title : String
  description : String
  created_at : Nat
  due_date : Option Nat
  is_completed : Bool
  assigned_to : Option Nat
  assigned_by : Option Nat
  birth_date : Option Date
deriving DecidableEq, Repr

/-- models.py `Attendance` (lines 41-45): non-nullable `user` foreign key with
`on_delete=CASCADE`, `status` choice field with choices P/A/L and default "A",
`check_in_time` (`auto_now_add`), nullable `check_out_time`. -/
structure Attendance where
  id : Nat
  user : Nat
  status : String
  check_in_time : Nat
  check_out_time : Option Nat
deriving DecidableEq, Repr

/-- The persistent store: one table per model. -/
structure DB where
  users : List UserProfile
  tasks : List Task
  attendances : List Attendance
deriving DecidableEq, Repr

/-- HTTP statuses the handlers in views.py produce. -/
inductive HttpStatus where
  | ok200
  | created201
  | badRequest400
  | unauthorized401
  | notFound404
deriving DecidableEq, Repr

/-- Every role/ownership rejection in views.py is surfaced as HTTP 401
(`status.HTTP_401_UNAUTHORIZED`): the source conflates the Forbidden error
class (authenticated but role/ownership check fails) with 401 instead of 403.
This abbreviation names that Forbidden class. -/
def forbiddenResp : HttpStatus := HttpStatus.unauthorized401

/-- `UserProfile.objects.get(pk=pk)` wrapped in the views' `get_object`
helper: `none` when the row does not exist. -/
def getUser (db : DB) (pk : Nat) : Option UserProfile :=
  db.users.find? (fun u => u.id == pk)

/-- `Task.objects.get(pk=pk)` wrapped in `get_object`. -/
def getTask (db : DB) (pk : Nat) : Option Task :=
  db.tasks.find? (fun t => t.id == pk)

/-- `Attendance.objects.get(pk=pk)` wrapped in `get_object`. -/
def getAttendance (db : DB) (pk : Nat) : Option Attendance :=
  db.attendances.find? (fun a => a.id == pk)

/-- Fresh primary key for an insert into the users table. -/
def newUserId (db : DB) : Nat :=
  (db.users.map UserProfile.id).foldr Nat.max 0 + 1

/-- Fresh primary key for an insert into the tasks table. -/
def newTaskId (db : DB) : Nat :=
  (db.tasks.map Task.id).foldr Nat.max 0 + 1

/-- Fresh primary key for an insert into the attendances table. -/
def newAttendanceId (db : DB) : Nat :=
  (db.attendances.map Attendance.id).foldr Nat.max 0 + 1

/-! ### Payloads (deserialized request bodies) -/

/-- Body of a UserProfile create/update request.  serializers.py
`UserProfileSerializer.create` reads exactly username, email, password and
role from the validated data. -/
structure UserPayload where
  username : Option String := none
  email : Option String := none
  password : Option String := none
  role : Option String := none
deriving DecidableEq, Repr

/-- Body of a Task create/update request.  The outer `Option` is key
presence; for nullable columns the inner `Option` is the JSON null. -/
structure TaskPayload where
  title : Option String := none
  description : Option String := none
  due_date : Option (Option Nat) := none
  is_completed : Option Bool := none
  assigned_to : Option (Option Nat) := none
  assigned_by : Option (Option Nat) := none
  birth_date : Option (Option Date) := none
deriving DecidableEq, Repr

/-- Body of an Attendance create/update request. -/
structure AttendancePayload where
  user : Option Nat := none
  status : Option String := none
  check_out_time : Option (Option Nat) := none
deriving DecidableEq, Repr

/-- The `status` choices of models.py line 43. -/
def attendanceStatusChoices : List String := ["P", "A", "L"]

/-- The role choices of models.py `Types`. -/
def roleChoices : List String := [Types.SUPERVISOR, Types.INTERN]

/-! ### Serializer validation (`serializer.is_valid()`)

`UserProfileSerializer`, `TaskSerializer` and `AttendanceSerializer` are
`ModelSerializer`s over all model fields, so `is_valid` enforces the model
constraints: required fields without defaults must be present, `CharField`
lengths, choice membership, uniqueness, and referential validity of foreign
keys (`PrimaryKeyRelatedField` resolves the id against the table). -/

/-- `UserProfileSerializer(data=...).is_valid()`: username (required, unique,
≤ 20), email (required, unique, ≤ 50), password (required, write-only), role
(a valid choice when present; the column has a default so the serializer does
not require it — but `UserProfileSerializer.create` reads it, so creation
needs it present). -/
def userPayloadValid (db : DB) (p : UserPayload) : Bool :=
  match p.username, p.email, p.password with
  | some un, some em, some pw =>
      0 < un.length && un.length ≤ 20 &&
      0 < em.length && em.length ≤ 50 &&
      0 < pw.length &&
      db.users.all (fun u => u.username != un) &&
      db.users.all (fun u => u.email != em) &&
      (match p.role with
       | some r => roleChoices.contains r
       | none => true)
  | _, _, _ => false

/-- `TaskSerializer(data=...).is_valid()`: title required (non-blank, ≤ 250),
description ≤ 250 when present, `assigned_to` / `assigned_by` must reference
existing users when a non-null id is supplied.  `created_at` is
`auto_now_add`, hence read-only to the serializer. -/
def taskPayloadValid (db : DB) (p : TaskPayload) : Bool :=
  (match p.title with
   | some t => 0 < t.length && t.length ≤ 250
   | none => false) &&
  (match p.description with
   | some d => d.length ≤ 250
   | none => true) &&
  (match p.assigned_to with
   | some (some uid) => db.users.any (fun u => u.id == uid)
   | _ => true) &&
  (match p.assigned_by with
   | some (some uid) => db.users.any (fun u => u.id == uid)
   | _ => true)

/-- `AttendanceSerializer(data=...).is_valid()`: `user` is a required foreign
key that must resolve, `status` must be one of the choices when present
(default "A" otherwise). -/
def attendancePayloadValid (db : DB) (p : AttendancePayload) : Bool :=
  (match p.user with
   | some uid => db.users.any (fun u => u.id == uid)
   | none => false) &&
  (match p.status with
   | some s => attendanceStatusChoices.contains s
   | none => true)

/-- `UserProfileSerializer(profile, data=...).is_valid()` on a full update:
same constraints as on create, except that the unique checks exclude the
instance under update. -/
def userPayloadValidForUpdate (db : DB) (pk : Nat) (p : UserPayload) : Bool :=
  match p.username, p.email, p.password with
  | some un, some em, some pw =>
      0 < un.length && un.length ≤ 20 &&
      0 < em.length && em.length ≤ 50 &&
      0 < pw.length &&
      db.users.all (fun u => u.id == pk || u.username != un) &&
      db.users.all (fun u => u.id == pk || u.email != em) &&
      (match p.role with
       | some r => roleChoices.contains r
       | none => true)
  | _, _, _ => false

/-! ### Serializer save on create -/

/-- Row produced by `UserProfileSerializer.save()` on a create:
`create_user(username, email, password, role)` with `AbstractUser` defaults
for all other columns and `date_joined = now`. -/
def createUserFromPayload (db : DB) (p : UserPayload) (now : Nat) : UserProfile :=
  { id := newUserId db
    password := p.password.getD ""
    last_login := none
    is_superuser := false
    first_name := ""
    last_name := ""
    is_staff := false
    is_active := true
    date_joined := now
    role := p.role.getD Types.INTERN
    email := p.email.getD ""
    username := p.username.getD "" }

/-- Row produced by `TaskSerializer.save()` on a create: model defaults for
omitted columns, `created_at = now`. -/
def createTaskFromPayload (db : DB) (p : TaskPayload) (now : Nat) : Task :=
  { id := newTaskId db
    title := p.title.getD ""
    description := p.description.getD ""
    created_at := now
    due_date := p.due_date.getD none
    is_completed := p.is_completed.getD false
    assigned_to := p.assigned_to.getD none
    assigned_by := p.assigned_by.getD none
    birth_date := p.birth_date.getD none }

/-- Row produced by `AttendanceSerializer.save()` on a create: status
defaults to "A" (the model default), `check_in_time = now`. -/
def createAttendanceFromPayload (db : DB) (p : AttendancePayload) (now : Nat) : Attendance :=
  { id := newAttendanceId db
    user := p.user.getD 0
    status := p.status.getD "A"
    check_in_time := now
    check_out_time := none }

/-! ### Serializer save on update -/

/-- `TaskSerializer(task, data=...).save()`: keys present in the body
overwrite the row, absent keys leave the stored value; `created_at` is
read-only (`auto_now_add`) and never overwritten. -/
def applyTaskUpdate (t : Task) (p : TaskPayload) : Task :=
  { t with
    title := p.title.getD t.title
    description := p.description.getD t.description
    due_date := p.due_date.getD t.due_date
    is_completed := p.is_completed.getD t.is_completed
    assigned_to := p.assigned_to.getD t.assigned_to
    assigned_by := p.assigned_by.getD t.assigned_by
    birth_date := p.birth_date.getD t.birth_date }

/-- `AttendanceSerializer(attendance, data=...).save()`; `check_in_time` is
read-only (`auto_now_add`). -/
def applyAttendanceUpdate (a : Attendance) (p : AttendancePayload) : Attendance :=
  { a with
    user := p.user.getD a.user
    status := p.status.getD a.status
    check_out_time := p.check_out_time.getD a.check_out_time }

/-- `UserProfileSerializer(profile, data=...).save()` on update. -/
def applyUserUpdate (u : UserProfile) (p : UserPayload) : UserProfile :=
  { u with
    username := p.username.getD u.username
    email := p.email.getD u.email
    password := p.password.getD u.password
    role := p.role.getD u.role }

/-! ### Serialized wire representation (serializers.py)

JSON values of a serialized row. -/

inductive JValue where
  | str (s : String)
  | nat (n : Nat)
  | bool (b : Bool)
  | null
deriving DecidableEq, Repr

/-- Encode an optional timestamp. -/
def jOptNat : Option Nat → JValue
  | some n => JValue.nat n
  | none => JValue.null

/-- serializers.py `UserProfileSerializer`: `fields = all` with
`password` marked `write_only`, so the serialized output carries every
concrete column of `UserProfile` except `password`. -/
def serializeUserProfile (u : UserProfile) : List (String × JValue) :=
  [ ("id", JValue.nat u.id)
  , ("last_login", jOptNat u.last_login)
  , ("is_superuser", JValue.bool u.is_superuser)
  , ("first_name", JValue.str u.first_name)
  , ("last_name", JValue.str u.last_name)
  , ("is_staff", JValue.bool u.is_staff)
  , ("is_active", JValue.bool u.is_active)
  , ("date_joined", JValue.nat u.date_joined)
  , ("role", JValue.str u.role)
  , ("email", JValue.str u.email)
  , ("username", JValue.str u.username) ]

/-! ### views.py request handlers

Each handler returns the HTTP status together with the database after the
request.  `actor` is `request.user`, already authenticated
(`permission_classes = [IsAuthenticated]`). -/

/-- views.py `UserProfileView.get` with a pk: retrieve one profile,
serialized. -/
def UserProfileView_getOne (db : DB) (pk : Nat) :
    HttpStatus × Option (List (String × JValue)) :=
  match getUser db pk with
  | none => (HttpStatus.notFound404, none)
  | some profile => (HttpStatus.ok200, some (serializeUserProfile profile))

/-- views.py `UserProfileView.get` without a pk: list all profiles,
serialized. -/
def UserProfileView_getAll (db : DB) : HttpStatus × List (List (String × JValue)) :=
  (HttpStatus.ok200, db.users.map serializeUserProfile)

/-- views.py `UserProfileView.post` (lines 55-70): supervisors only, then
serializer validation, then save. -/
def UserProfileView_post (actor : UserProfile) (p : UserPayload) (now : Nat)
    (db : DB) : HttpStatus × DB :=
  if actor.role != Types.SUPERVISOR then (HttpStatus.unauthorized401, db)
  else if userPayloadValid db p then
    (HttpStatus.created201,
     { db with users := db.users ++ [createUserFromPayload db p now] })
  else (HttpStatus.badRequest400, db)

/-- views.py `UserProfileView.put` (lines 72-91): 404 when the pk does not
resolve, then the supervisor check, then validation, then save. -/
def UserProfileView_put (actor : UserProfile) (pk : Nat) (p : UserPayload)
    (db : DB) : HttpStatus × DB :=
  match getUser db pk with
  | none => (HttpStatus.notFound404, db)
  | some _ =>
    if actor.role != Types.SUPERVISOR then (HttpStatus.unauthorized401, db)
    else if userPayloadValidForUpdate db pk p then
      (HttpStatus.ok200,
       { db with users := db.users.map (fun u =>
           if u.id == pk then applyUserUpdate u p else u) })
    else (HttpStatus.badRequest400, db)

/-- Django's delete collector for a `UserProfile` row: rows whose
`on_delete` is `CASCADE` (Task.assigned_to, Attendance.user) are deleted
with the user; rows reachable only through `SET_NULL` (Task.assigned_by)
survive with the reference cleared. -/
def cascadeDeleteUser (db : DB) (uid : Nat) : DB :=
  { users := db.users.filter (fun u => u.id != uid)
    tasks := (db.tasks.filter (fun t => t.assigned_to != some uid)).map
      (fun t => if t.assigned_by == some uid then { t with assigned_by := none } else t)
    attendances := db.attendances.filter (fun a => a.user != uid) }

/-- views.py `UserProfileView.delete` (lines 93-109): 404 when the pk does
not resolve, then the supervisor check, then `profile.delete()`. -/
def UserProfileView_delete (actor : UserProfile) (pk : Nat) (db : DB) :
    HttpStatus × DB :=
  match getUser db pk with
  | none => (HttpStatus.notFound404, db)
  | some _ =>
    if actor.role != Types.SUPERVISOR then (HttpStatus.unauthorized401, db)
    else (HttpStatus.ok200, cascadeDeleteUser db pk)

/-- views.py `TaskView.post` (lines 152-167): supervisors only. -/
def TaskView_post (actor : UserProfile) (p : TaskPayload) (now : Nat)
    (db : DB) : HttpStatus × DB :=
  if actor.role != Types.SUPERVISOR then (HttpStatus.unauthorized401, db)
  else if taskPayloadValid db p then
    (HttpStatus.created201,
     { db with tasks := db.tasks ++ [createTaskFromPayload db p now] })
  else (HttpStatus.badRequest400, db)

/-- views.py `TaskView.put` (lines 169-188): 404 when the pk does not
resolve; then denial unless the actor is a supervisor or
`task.assigned_to == request.user`; then validation; then save. -/
def TaskView_put (actor : UserProfile) (pk : Nat) (p : TaskPayload)
    (db : DB) : HttpStatus × DB :=
  match getTask db pk with
  | none => (HttpStatus.notFound404, db)
  | some task =>
    if actor.role != Types.SUPERVISOR && task.assigned_to != some actor.id then
      (HttpStatus.unauthorized401, db)
    else if taskPayloadValid db p then
      (HttpStatus.ok200,
       { db with tasks := db.tasks.map (fun t =>
           if t.id == pk then applyTaskUpdate t p else t) })
    else (HttpStatus.badRequest400, db)

/-- views.py `TaskView.delete` (lines 190-206): 404 when the pk does not
resolve, then the supervisor check, then `task.delete()`. -/
def TaskView_delete (actor : UserProfile) (pk : Nat) (db : DB) :
    HttpStatus × DB :=
  match getTask db pk with
  | none => (HttpStatus.notFound404, db)
  | some _ =>
    if actor.role != Types.SUPERVISOR then (HttpStatus.unauthorized401, db)
    else (HttpStatus.ok200, { db with tasks := db.tasks.filter (fun t => t.id != pk) })

/-- views.py `AttendanceView.post` (lines 249-264): supervisors only. -/
def AttendanceView_post (actor : UserProfile) (p : AttendancePayload) (now : Nat)
    (db : DB) : HttpStatus × DB :=
  if actor.role != Types.SUPERVISOR then (HttpStatus.unauthorized401, db)
  else if attendancePayloadValid db p then
    (HttpStatus.created201,
     { db with attendances := db.attendances ++ [createAttendanceFromPayload db p now] })
  else (HttpStatus.badRequest400, db)

/-- views.py `AttendanceView.put` (lines 266-285): 404 when the pk does not
resolve; then denial unless the actor is a supervisor or
`attendance.user == request.user`; then validation; then save. -/
def AttendanceView_put (actor : UserProfile) (pk : Nat) (p : AttendancePayload)
    (db : DB) : HttpStatus × DB :=
  match getAttendance db pk with
  | none => (HttpStatus.notFound404, db)
  | some attendance =>
    if actor.role != Types.SUPERVISOR && attendance.user != actor.id then
      (HttpStatus.unauthorized401, db)
    else if attendancePayloadValid db p then
      (HttpStatus.ok200,
       { db with attendances := db.attendances.map (fun a =>
           if a.id == pk then applyAttendanceUpdate a p else a) })
    else (HttpStatus.badRequest400, db)

/-- views.py `AttendanceView.delete` (lines 287-303): 404 when the pk does
not resolve, then the supervisor check, then `attendance.delete()`. -/
def AttendanceView_delete (actor : UserProfile) (pk : Nat) (db : DB) :
    HttpStatus × DB :=
  match getAttendance db pk with
  | none => (HttpStatus.notFound404, db)
  | some _ =>
    if actor.role != Types.SUPERVISOR then (HttpStatus.unauthorized401, db)
    else (HttpStatus.ok200,
          { db with attendances := db.attendances.filter (fun a => a.id != pk) })

/-- views.py `MarkAttendanceView.post` (lines 344-360): interns only; the
record's body is rebuilt as
`data = ` user `= request.user.id, status = request.data.get('status', 'P')`,
so any client-supplied `user` is discarded and a missing `status` defaults to
"P"; then serializer validation and save. -/
def MarkAttendanceView_post (actor : UserProfile) (p : AttendancePayload)
    (now : Nat) (db : DB) : HttpStatus × DB :=
  if actor.role != Types.INTERN then (HttpStatus.unauthorized401, db)
  else
    let d : AttendancePayload :=
      { user := some actor.id, status := some (p.status.getD "P") }
    if attendancePayloadValid db d then
      (HttpStatus.created201,
       { db with attendances := db.attendances ++ [createAttendanceFromPayload db d now] })
    else (HttpStatus.badRequest400, db)

/-- views.py `MarkTaskCompleteView.patch` (lines 369-389): interns only;
then `Task.objects.get(pk=pk, assigned_to=request.user)` — a miss (absent
task OR a task assigned to someone else) answers 404; then a partial update
setting `is_completed = True` (always valid). -/
def MarkTaskCompleteView_patch (actor : UserProfile) (pk : Nat) (db : DB) :
    HttpStatus × DB :=
  if actor.role != Types.INTERN then (HttpStatus.unauthorized401, db)
  else if db.tasks.any (fun t => t.id == pk && t.assigned_to == some actor.id) then
    (HttpStatus.ok200,
     { db with tasks := db.tasks.map (fun t =>
         if t.id == pk && t.assigned_to == some actor.id
         then { t with is_completed := true } else t) })
  else (HttpStatus.notFound404, db)

/-- views.py `AssignTaskView.post` (lines 398-415): supervisors only; the
body is copied and `assigned_by` is overwritten with `request.user.id`
before validation and save. -/
def AssignTaskView_post (actor : UserProfile) (p : TaskPayload) (now : Nat)
    (db : DB) : HttpStatus × DB :=
  if actor.role != Types.SUPERVISOR then (HttpStatus.unauthorized401, db)
  else
    let d : TaskPayload := { p with assigned_by := some (some actor.id) }
    if taskPayloadValid db d then
      (HttpStatus.created201,
       { db with tasks := db.tasks ++ [createTaskFromPayload db d now] })
    else (HttpStatus.badRequest400, db)

/-! ### tasks.py — periodic notification jobs

Django's ORM resolves each keyword of a `filter(...)` call against the
model's declared columns before touching any row; a lookup whose leading
field name is not a column of the model raises
`FieldError: Cannot resolve keyword ... into field` unconditionally. -/

/-- The concrete columns of `UserProfile`: Django's `AbstractUser` columns
plus `role`, `email`, `username` from models.py lines 12-14.  There is no
`birth_date` column here. -/
def userProfileFieldNames : List String :=
  [ "id", "password", "last_login", "is_superuser", "first_name", "last_name"
  , "is_staff", "is_active", "date_joined", "role", "email", "username" ]

/-- The concrete columns of `Task` (models.py lines 25-33), including the
`birth_date` column declared there. -/
def taskFieldNames : List String :=
  [ "id", "title", "description", "created_at", "due_date", "is_completed"
  , "assigned_to", "assigned_by", "birth_date" ]

/-- The leading field names of the keyword lookups in
`UserProfile.objects.filter(birth_date__day=..., birth_date__month=...,
is_active=True)` (tasks.py lines 16-20). -/
def birthdayQueryLookupFields : List String :=
  ["birth_date", "birth_date", "is_active"]

/-- The ORM's field-resolution step: every lookup's leading field must be a
column of the queried model, otherwise the queryset raises a `FieldError`. -/
def ormLookupsResolve (modelFields lookupFields : List String) : Bool :=
  lookupFields.all (fun f => modelFields.contains f)

/-- Body of the birthday email of tasks.py lines 24-25. -/
def birthdayMessage (username : String) : String :=
  "Dear " ++ username ++
  ",\n\nWishing you a very Happy Birthday from the team! Have a fantastic day!\n\nBest regards,\nYour App Team"

/-- tasks.py `send_happy_birthday_emails`: evaluates
`UserProfile.objects.filter(birth_date__day=today.day,
birth_date__month=today.month, is_active=True)` and sends one email per
resulting user.  The lookups are resolved against `UserProfile`'s columns
first; because `UserProfile` has no `birth_date` column (the column sits on
`Task`), resolution fails and the job raises a `FieldError` before examining
any row — so the result is an error for every database and every date.  In
the (unreachable) branch where the lookups would resolve, the embedding
keeps the one restriction that is expressible over `UserProfile`
(`is_active=True`); the day/month restriction has no column to read.
Result: recipient/subject/message triples, or the raised error. -/
def send_happy_birthday_emails (db : DB) (today : Date) :
    Except String (List (String × String × String)) :=
  if ormLookupsResolve userProfileFieldNames birthdayQueryLookupFields then
    Except.ok ((db.users.filter (fun u => u.is_active)).map (fun u =>
      (u.email, "Happy Birthday!", birthdayMessage u.username)))
  else
    Except.error
      "FieldError: Cannot resolve keyword birth_date into field (model UserProfile)"

/-- Body of the greeting email of tasks.py lines 45-46. -/
def goodMorningMessage (username : String) : String :=
  "Good Morning, " ++ username ++
  "!\n\nWe hope you have a great day ahead!\n\nBest regards,\nYour App Team"

/-- tasks.py `send_good_morning_emails`: one greeting email per active user;
its lookup `is_active` resolves, so the job never raises a `FieldError`. -/
def send_good_morning_emails (db : DB) :
    Except String (List (String × String × String)) :=
  if ormLookupsResolve userProfileFieldNames ["is_active"] then
    Except.ok ((db.users.filter (fun u => u.is_active)).map (fun u =>
      (u.email, "Good Morning!", goodMorningMessage u.username)))
  else
    Except.error "FieldError"

/-! ### Sample data for witnesses and counterexamples -/

/-- A supervisor account. -/
def supAlice : UserProfile :=
  { id := 1, password := "s3cret", last_login := none, is_superuser := false
  , first_name := "", last_name := "", is_staff := false, is_active := true
  , date_joined := 0, role := Types.SUPERVISOR
  , email := "alice@example.com", username := "alice" }

/-- An intern account. -/
def internBob : UserProfile :=
  { id := 2, password := "hunter2", last_login := none, is_superuser := false
  , first_name := "", last_name := "", is_staff := false, is_active := true
  , date_joined := 0, role := Types.INTERN
  , email := "bob@example.com", username := "bob" }

/-- A second intern account. -/
def internJane : UserProfile :=
  { id := 3, password := "pw3", last_login := none, is_superuser := false
  , first_name := "", last_name := "", is_staff := false, is_active := true
  , date_joined := 0, role := Types.INTERN
  , email := "jane@example.com", username := "jane" }

/-- A task assigned to Bob by Alice. -/
def taskReport : Task :=
  { id := 10, title := "Report", description := "", created_at := 5
  , due_date := none, is_completed := false
  , assigned_to := some internBob.id, assigned_by := some supAlice.id
  , birth_date := none }

/-- An attendance row for Bob. -/
def attBob : Attendance :=
  { id := 20, user := internBob.id, status := "P"
  , check_in_time := 6, check_out_time := none }

/-- A small store holding the three accounts, one task and one attendance
row. -/
def dbBase : DB :=
  { users := [supAlice, internBob, internJane]
  , tasks := [taskReport]
  , attendances := [attBob] }

/-! ### Claims -/

/-- C1: the spec places the optional birth date on the User record and has
the daily birthday job select the active users whose stored birth date
matches the current day and month.  The code contradicts its own docstring:
models.py declares `birth_date` on `Task` (line 33), not on `UserProfile`,
while tasks.py filters `UserProfile` by `birth_date__day` / `birth_date__month`
— a lookup that cannot resolve, so the job raises a `FieldError` on every
run and selects nobody. -/
theorem C1_birthday_job_field_mismatch :
    ("birth_date" ∈ taskFieldNames ∧ "birth_date" ∉ userProfileFieldNames) ∧
    ∀ (db : DB) (today : Date),
      send_happy_birthday_emails db today =
        Except.error
          "FieldError: Cannot resolve keyword birth_date into field (model UserProfile)" := by
  refine ⟨⟨by decide, by decide⟩, fun db today => ?_⟩
  rfl

/-- C2 counterexample: the claim quantifies over every caller, but
`MarkTaskCompleteView.patch` checks the role before the lookup — a
Supervisor calling CompleteTask on a task id that does not exist receives
the 401 Forbidden-class response, not 404 NotFound. -/
theorem C2_counterexample :
    getTask { users := [supAlice], tasks := [], attendances := [] } 1 = none ∧
    (MarkTaskCompleteView_patch supAlice 1
        { users := [supAlice], tasks := [], attendances := [] }).1 = forbiddenResp ∧
    forbiddenResp ≠ HttpStatus.notFound404 := by
  refine ⟨rfl, rfl, by decide⟩

/-- C2 (amended): for every caller whose role is Intern, if the task does
not exist or is not assigned to the caller, CompleteTask answers NotFound
(never the Forbidden class) and leaves the store unchanged; callers whose
role is not Intern are rejected with the 401 Forbidden-class response
before any lookup. -/
theorem C2_complete_task_masking (actor : UserProfile) (pk : Nat) (db : DB) :
    (actor.role = Types.INTERN →
      (∀ t ∈ db.tasks, ¬(t.id = pk ∧ t.assigned_to = some actor.id)) →
      MarkTaskCompleteView_patch actor pk db = (HttpStatus.notFound404, db)) ∧
    (actor.role ≠ Types.INTERN →
      MarkTaskCompleteView_patch actor pk db = (forbiddenResp, db)) := by
  constructor
  · intro hrole hmiss
    have hne : (actor.role != Types.INTERN) = false := by
      simp [hrole]
    have hany : db.tasks.any (fun t => t.id == pk && t.assigned_to == some actor.id) = false := by
      rw [List.any_eq_false]
      intro t ht
      simp only [Bool.and_eq_true, beq_iff_eq, not_and]
      intro h1 h2
      exact hmiss t ht ⟨h1, h2⟩
    simp [MarkTaskCompleteView_patch, hne, hany]
  · intro hrole
    have hne : (actor.role != Types.INTERN) = true := by
      simpa using hrole
    simp [MarkTaskCompleteView_patch, hne, forbiddenResp]

/-- C2 witness: intern Jane asks to complete task 10, which is assigned to
Bob, and gets 404 with the store untouched; supervisor Alice is rejected
with 401 on the same id. -/
theorem C2_complete_task_masking_witness :
    MarkTaskCompleteView_patch internJane 10 dbBase = (HttpStatus.notFound404, dbBase) ∧
    MarkTaskCompleteView_patch supAlice 10 dbBase = (forbiddenResp, dbBase) :=
  ⟨(C2_complete_task_masking internJane 10 dbBase).1 (by decide) (by decide),
   (C2_complete_task_masking supAlice 10 dbBase).2 (by decide)⟩

/-- C3: MarkAttendance rejects any caller whose role is not Intern with the
Forbidden-class response and an unchanged store; for an Intern caller every
row the request adds carries `user = caller.id` whatever the body said; and
when the body has no `status` key (and the caller's account exists) the
request creates exactly one row with status "P" and `user = caller.id`. -/
theorem C3_mark_attendance_forces_user (actor : UserProfile)
    (p : AttendancePayload) (now : Nat) (db : DB) :
    (actor.role ≠ Types.INTERN →
      MarkAttendanceView_post actor p now db = (forbiddenResp, db)) ∧
    (actor.role = Types.INTERN →
      ∀ a ∈ (MarkAttendanceView_post actor p now db).2.attendances,
        a ∈ db.attendances ∨ a.user = actor.id) ∧
    (actor.role = Types.INTERN → p.status = none →
      (∃ u ∈ db.users, u.id = actor.id) →
      MarkAttendanceView_post actor p now db =
        (HttpStatus.created201,
         { db with attendances := db.attendances ++
             [{ id := newAttendanceId db, user := actor.id, status := "P"
              , check_in_time := now, check_out_time := none }] })) := by
  refine ⟨fun hne => ?_, fun hrole a ha => ?_, fun hrole hst hmem => ?_⟩
  · have h1 : (actor.role != Types.INTERN) = true := by simpa using hne
    simp [MarkAttendanceView_post, h1, forbiddenResp]
  · have h1 : (actor.role != Types.INTERN) = false := by simp [hrole]
    by_cases hv : attendancePayloadValid db
        { user := some actor.id, status := some (p.status.getD "P") } = true
    · simp only [MarkAttendanceView_post, h1, Bool.false_eq_true, if_false, hv, if_true] at ha
      rcases List.mem_append.mp ha with hin | hnew
      · exact Or.inl hin
      · right
        have : a = createAttendanceFromPayload db
            { user := some actor.id, status := some (p.status.getD "P") } now := by
          simpa using hnew
        simp [this, createAttendanceFromPayload]
    · simp only [MarkAttendanceView_post, h1, Bool.false_eq_true, if_false, hv] at ha
      exact Or.inl ha
  · have h1 : (actor.role != Types.INTERN) = false := by simp [hrole]
    rcases hmem with ⟨u, hu, hui⟩
    have hany : db.users.any (fun v => v.id == actor.id) = true :=
      List.any_eq_true.mpr ⟨u, hu, by simp [hui]⟩
    have hgd : p.status.getD "P" = "P" := by simp [hst]
    have hv : attendancePayloadValid db
        { user := some actor.id, status := some "P" } = true := by
      simp [attendancePayloadValid, hany, attendanceStatusChoices]
    simp [MarkAttendanceView_post, h1, hgd, hv, createAttendanceFromPayload]

/-- C3 witness: non-Intern Alice is rejected; Bob posting an empty body
creates one row with user = Bob and status "P" even though the concrete
body asked for user = 99. -/
theorem C3_mark_attendance_forces_user_witness :
    MarkAttendanceView_post supAlice { user := some 99 } 8 dbBase = (forbiddenResp, dbBase) ∧
    MarkAttendanceView_post internBob { user := some 99 } 8 dbBase =
      (HttpStatus.created201,
       { dbBase with attendances := dbBase.attendances ++
           [{ id := newAttendanceId dbBase, user := internBob.id, status := "P"
            , check_in_time := 8, check_out_time := none }] }) :=
  ⟨(C3_mark_attendance_forces_user supAlice { user := some 99 } 8 dbBase).1 (by decide),
   (C3_mark_attendance_forces_user internBob { user := some 99 } 8 dbBase).2.2
     (by decide) rfl ⟨internBob, by decide, rfl⟩⟩

/-- C4: AssignTask rejects any caller whose role is not Supervisor with the
Forbidden-class response and an unchanged store; for a Supervisor caller
every task the request adds carries `assigned_by = caller.id` whatever the
body said; and when the rebuilt body validates, the request creates exactly
the task stamped with the caller's id. -/
theorem C4_assign_task_forces_assigned_by (actor : UserProfile)
    (p : TaskPayload) (now : Nat) (db : DB) :
    (actor.role ≠ Types.SUPERVISOR →
      AssignTaskView_post actor p now db = (forbiddenResp, db)) ∧
    (actor.role = Types.SUPERVISOR →
      ∀ t ∈ (AssignTaskView_post actor p now db).2.tasks,
        t ∈ db.tasks ∨ t.assigned_by = some actor.id) ∧
    (actor.role = Types.SUPERVISOR →
      taskPayloadValid db { p with assigned_by := some (some actor.id) } = true →
      AssignTaskView_post actor p now db =
        (HttpStatus.created201,
         { db with tasks := db.tasks ++
             [createTaskFromPayload db { p with assigned_by := some (some actor.id) } now] }) ∧
      (createTaskFromPayload db { p with assigned_by := some (some actor.id) } now).assigned_by
        = some actor.id) := by
  refine ⟨fun hne => ?_, fun hrole t ht => ?_, fun hrole hv => ?_⟩
  · have h1 : (actor.role != Types.SUPERVISOR) = true := by simpa using hne
    simp [AssignTaskView_post, h1, forbiddenResp]
  · have h1 : (actor.role != Types.SUPERVISOR) = false := by simp [hrole]
    by_cases hv : taskPayloadValid db { p with assigned_by := some (some actor.id) } = true
    · simp only [AssignTaskView_post, h1, Bool.false_eq_true, if_false, hv, if_true] at ht
      rcases List.mem_append.mp ht with hin | hnew
      · exact Or.inl hin
      · right
        have : t = createTaskFromPayload db { p with assigned_by := some (some actor.id) } now := by
          simpa using hnew
        simp [this, createTaskFromPayload]
    · simp only [AssignTaskView_post, h1, Bool.false_eq_true, if_false, hv] at ht
      exact Or.inl ht
  · have h1 : (actor.role != Types.SUPERVISOR) = false := by simp [hrole]
    constructor
    · simp [AssignTaskView_post, h1, hv]
    · simp [createTaskFromPayload]

/-- C4 witness: intern Bob is rejected; supervisor Alice posting a body that
claims `assigned_by = 99` creates a task stamped `assigned_by = 1`
(Alice's id). -/
theorem C4_assign_task_forces_assigned_by_witness :
    AssignTaskView_post internBob { title := some "Audit" } 9 dbBase = (forbiddenResp, dbBase) ∧
    AssignTaskView_post supAlice
        { title := some "Audit", assigned_to := some (some 2), assigned_by := some (some 99) } 9 dbBase =
      (HttpStatus.created201,
       { dbBase with tasks := dbBase.tasks ++
           [createTaskFromPayload dbBase
              { title := some "Audit", assigned_to := some (some 2)
              , assigned_by := some (some supAlice.id) } 9] }) ∧
    (createTaskFromPayload dbBase
        { title := some "Audit", assigned_to := some (some 2)
        , assigned_by := some (some supAlice.id) } 9).assigned_by = some supAlice.id :=
  ⟨(C4_assign_task_forces_assigned_by internBob { title := some "Audit" } 9 dbBase).1 (by decide),
   ((C4_assign_task_forces_assigned_by supAlice
       { title := some "Audit", assigned_to := some (some 2), assigned_by := some (some 99) }
       9 dbBase).2.2 (by decide) (by decide)).1,
   ((C4_assign_task_forces_assigned_by supAlice
       { title := some "Audit", assigned_to := some (some 2), assigned_by := some (some 99) }
       9 dbBase).2.2 (by decide) (by decide)).2⟩

/-- A task both assigned to and assigned by Bob: the CASCADE on
`assigned_to` deletes it together with Bob even though `assigned_by` alone
would only be cleared. -/
def taskSelf : Task :=
  { id := 11, title := "Self-assigned", description := "", created_at := 0
  , due_date := none, is_completed := false
  , assigned_to := some internBob.id, assigned_by := some internBob.id
  , birth_date := none }

/-- Store for the C5 counterexample. -/
def dbSelf : DB :=
  { users := [supAlice, internBob], tasks := [taskSelf], attendances := [] }

/-- No task surviving a user delete references the deleted user. -/
theorem cascadeDeleteUser_tasks_clean (db : DB) (uid : Nat) :
    ∀ t ∈ (cascadeDeleteUser db uid).tasks,
      t.assigned_to ≠ some uid ∧ t.assigned_by ≠ some uid := by
  intro t ht
  unfold cascadeDeleteUser at ht
  simp only [List.mem_map, List.mem_filter] at ht
  rcases ht with ⟨s, ⟨_, hsto⟩, rfl⟩
  cases hb : s.assigned_by == some uid with
  | true =>
    refine ⟨?_, ?_⟩ <;> simp_all [bne_iff_ne]
  | false =>
    refine ⟨?_, ?_⟩ <;> simp_all [bne_iff_ne]

/-- A task not assigned to the deleted user but assigned by them survives
with `assigned_by` cleared. -/
theorem cascadeDeleteUser_tasks_cleared (db : DB) (uid : Nat) :
    ∀ t ∈ db.tasks, t.assigned_to ≠ some uid → t.assigned_by = some uid →
      { t with assigned_by := none } ∈ (cascadeDeleteUser db uid).tasks := by
  intro t ht hto hby
  unfold cascadeDeleteUser
  simp only [List.mem_map, List.mem_filter]
  exact ⟨t, ⟨ht, by simpa [bne_iff_ne] using hto⟩, by simp [hby]⟩

/-- A task referencing the deleted user in neither column survives
unchanged. -/
theorem cascadeDeleteUser_tasks_kept (db : DB) (uid : Nat) :
    ∀ t ∈ db.tasks, t.assigned_to ≠ some uid → t.assigned_by ≠ some uid →
      t ∈ (cascadeDeleteUser db uid).tasks := by
  intro t ht hto hby
  unfold cascadeDeleteUser
  simp only [List.mem_map, List.mem_filter]
  refine ⟨t, ⟨ht, by simpa [bne_iff_ne] using hto⟩, ?_⟩
  have hb : (t.assigned_by == some uid) = false := by
    simpa [beq_eq_false_iff_ne] using hby
  simp [hb]

/-- C5 counterexample: Bob's store holds a task with
`assigned_by = Bob` (and `assigned_to = Bob`); after the supervisor deletes
Bob, no task survives — the claim's "every Task whose assigned_by is u
survives" fails for tasks also assigned to u, which the CASCADE on
`assigned_to` removes. -/
theorem C5_counterexample :
    taskSelf.assigned_by = some internBob.id ∧
    taskSelf ∈ dbSelf.tasks ∧
    (UserProfileView_delete supAlice internBob.id dbSelf).1 = HttpStatus.ok200 ∧
    (UserProfileView_delete supAlice internBob.id dbSelf).2.tasks = [] := by
  refine ⟨rfl, by decide, rfl, rfl⟩

/-- C5 (amended): when a supervisor deletes user u, the delete answers 200;
no surviving task references u in either column and no surviving attendance
row belongs to u (in particular every task with `assigned_to = u` and every
attendance row of u is gone, including tasks that also had
`assigned_by = u`); every task with `assigned_to ≠ u` and `assigned_by = u`
survives with `assigned_by` cleared to null; tasks referencing u in neither
column and attendance rows of other users survive unchanged, and u's own
row is gone. -/
theorem C5_delete_user_cascade (actor : UserProfile) (uid : Nat) (db : DB)
    (hrole : actor.role = Types.SUPERVISOR)
    (hex : ∃ u ∈ db.users, u.id = uid) :
    (UserProfileView_delete actor uid db).1 = HttpStatus.ok200 ∧
    (∀ t ∈ (UserProfileView_delete actor uid db).2.tasks,
        t.assigned_to ≠ some uid ∧ t.assigned_by ≠ some uid) ∧
    (∀ a ∈ (UserProfileView_delete actor uid db).2.attendances, a.user ≠ uid) ∧
    (∀ u ∈ (UserProfileView_delete actor uid db).2.users, u.id ≠ uid) ∧
    (∀ t ∈ db.tasks, t.assigned_to ≠ some uid → t.assigned_by = some uid →
        { t with assigned_by := none } ∈ (UserProfileView_delete actor uid db).2.tasks) ∧
    (∀ t ∈ db.tasks, t.assigned_to ≠ some uid → t.assigned_by ≠ some uid →
        t ∈ (UserProfileView_delete actor uid db).2.tasks) ∧
    (∀ a ∈ db.attendances, a.user ≠ uid →
        a ∈ (UserProfileView_delete actor uid db).2.attendances) := by
  rcases hex with ⟨u, hu, hui⟩
  have hfind : (getUser db uid).isSome = true := by
    rw [getUser, List.find?_isSome]
    exact ⟨u, hu, by simp [hui]⟩
  have hne : (actor.role != Types.SUPERVISOR) = false := by simp [hrole]
  have hres : UserProfileView_delete actor uid db =
      (HttpStatus.ok200, cascadeDeleteUser db uid) := by
    unfold UserProfileView_delete
    cases hg : getUser db uid with
    | none => rw [hg] at hfind; simp at hfind
    | some v => simp [hg, hne]
  rw [hres]
  refine ⟨rfl, cascadeDeleteUser_tasks_clean db uid, ?_, ?_,
    cascadeDeleteUser_tasks_cleared db uid, cascadeDeleteUser_tasks_kept db uid, ?_⟩
  · intro a ha
    unfold cascadeDeleteUser at ha
    simp only [List.mem_filter] at ha
    simpa [bne_iff_ne] using ha.2
  · intro v hv
    unfold cascadeDeleteUser at hv
    simp only [List.mem_filter] at hv
    simpa [bne_iff_ne] using hv.2
  · intro a _ hau
    unfold cascadeDeleteUser
    simp only [List.mem_filter]
    exact ⟨by assumption, by simpa [bne_iff_ne] using hau⟩

/-- C5 witness: supervisor Alice deletes Bob from the base store (which
holds a task assigned to Bob and an attendance row of Bob) and the delete
answers 200. -/
theorem C5_delete_user_cascade_witness :
    (UserProfileView_delete supAlice internBob.id dbBase).1 = HttpStatus.ok200 ∧
    taskReport ∈ dbBase.tasks ∧ taskReport.assigned_to = some internBob.id ∧
    attBob ∈ dbBase.attendances ∧ attBob.user = internBob.id := by
  have h := C5_delete_user_cascade supAlice internBob.id dbBase (by decide)
    ⟨internBob, by decide, rfl⟩
  exact ⟨h.1, by decide, rfl, by decide, rfl⟩

/-- C6: for an existing Task or Attendance row and a valid body, the
generic update answers 200 exactly when the actor is a Supervisor or is the
row's owner (`assigned_to` for tasks, `user` for attendance rows); any other
actor is denied with the Forbidden-class response and the store is
unchanged. -/
theorem C6_update_owner_or_supervisor (actor : UserProfile) (pk : Nat) (db : DB) :
    (∀ (task : Task) (p : TaskPayload), getTask db pk = some task →
      taskPayloadValid db p = true →
      (((TaskView_put actor pk p db).1 = HttpStatus.ok200 ↔
          (actor.role = Types.SUPERVISOR ∨ task.assigned_to = some actor.id)) ∧
       (actor.role ≠ Types.SUPERVISOR → task.assigned_to ≠ some actor.id →
          TaskView_put actor pk p db = (forbiddenResp, db)))) ∧
    (∀ (att : Attendance) (p : AttendancePayload), getAttendance db pk = some att →
      attendancePayloadValid db p = true →
      (((AttendanceView_put actor pk p db).1 = HttpStatus.ok200 ↔
          (actor.role = Types.SUPERVISOR ∨ att.user = actor.id)) ∧
       (actor.role ≠ Types.SUPERVISOR → att.user ≠ actor.id →
          AttendanceView_put actor pk p db = (forbiddenResp, db)))) := by
  constructor
  · intro task p hg hv
    by_cases hallow : actor.role = Types.SUPERVISOR ∨ task.assigned_to = some actor.id
    · have hcond : (actor.role != Types.SUPERVISOR &&
          task.assigned_to != some actor.id) = false := by
        rcases hallow with h | h <;> simp [h]
      constructor
      · simp [TaskView_put, hg, hcond, hv, hallow]
      · intro h1 h2
        rcases hallow with h | h
        · exact absurd h h1
        · exact absurd h h2
    · push_neg at hallow
      have hcond : (actor.role != Types.SUPERVISOR &&
          task.assigned_to != some actor.id) = true := by
        simp [bne_iff_ne, hallow.1, hallow.2]
      constructor
      · simp only [TaskView_put, hg, hcond, if_true]
        constructor
        · intro h; cases h
        · rintro (h | h)
          · exact absurd h hallow.1
          · exact absurd h hallow.2
      · intro _ _
        simp [TaskView_put, hg, hcond, forbiddenResp]
  · intro att p hg hv
    by_cases hallow : actor.role = Types.SUPERVISOR ∨ att.user = actor.id
    · have hcond : (actor.role != Types.SUPERVISOR && att.user != actor.id) = false := by
        rcases hallow with h | h <;> simp [h]
      constructor
      · simp [AttendanceView_put, hg, hcond, hv, hallow]
      · intro h1 h2
        rcases hallow with h | h
        · exact absurd h h1
        · exact absurd h h2
    · push_neg at hallow
      have hcond : (actor.role != Types.SUPERVISOR && att.user != actor.id) = true := by
        simp [bne_iff_ne, hallow.1, hallow.2]
      constructor
      · simp only [AttendanceView_put, hg, hcond, if_true]
        constructor
        · intro h; cases h
        · rintro (h | h)
          · exact absurd h hallow.1
          · exact absurd h hallow.2
      · intro _ _
        simp [AttendanceView_put, hg, hcond, forbiddenResp]

/-- C6 witness: on the base store, intern Jane (neither supervisor nor
owner) is denied the update of task 10 and of attendance row 20 with the
store unchanged, while owner Bob's task update answers 200. -/
theorem C6_update_owner_or_supervisor_witness :
    TaskView_put internJane 10 { title := some "Hijack" } dbBase = (forbiddenResp, dbBase) ∧
    AttendanceView_put internJane 20 { user := some 3, status := some "L" } dbBase =
      (forbiddenResp, dbBase) ∧
    (TaskView_put internBob 10 { title := some "Done" } dbBase).1 = HttpStatus.ok200 := by
  refine ⟨?_, ?_, ?_⟩
  · exact ((C6_update_owner_or_supervisor internJane 10 dbBase).1 taskReport
      { title := some "Hijack" } (by decide) (by decide)).2 (by decide) (by decide)
  · exact ((C6_update_owner_or_supervisor internJane 20 dbBase).2 attBob
      { user := some 3, status := some "L" } (by decide) (by decide)).2 (by decide) (by decide)
  · exact ((C6_update_owner_or_supervisor internBob 10 dbBase).1 taskReport
      { title := some "Done" } (by decide) (by decide)).1.mpr (Or.inr (by decide))

/-- C7: every non-Supervisor actor is denied Create on each of the three
collections and Delete of each existing row with the Forbidden-class
response, and the store is left unchanged. -/
theorem C7_create_delete_supervisor_only (actor : UserProfile) (db : DB)
    (hrole : actor.role ≠ Types.SUPERVISOR) :
    (∀ (p : UserPayload) (now : Nat),
        UserProfileView_post actor p now db = (forbiddenResp, db)) ∧
    (∀ (p : TaskPayload) (now : Nat),
        TaskView_post actor p now db = (forbiddenResp, db)) ∧
    (∀ (p : AttendancePayload) (now : Nat),
        AttendanceView_post actor p now db = (forbiddenResp, db)) ∧
    (∀ pk, (getUser db pk).isSome = true →
        UserProfileView_delete actor pk db = (forbiddenResp, db)) ∧
    (∀ pk, (getTask db pk).isSome = true →
        TaskView_delete actor pk db = (forbiddenResp, db)) ∧
    (∀ pk, (getAttendance db pk).isSome = true →
        AttendanceView_delete actor pk db = (forbiddenResp, db)) := by
  have hb : (actor.role != Types.SUPERVISOR) = true := by simpa using hrole
  refine ⟨fun p now => ?_, fun p now => ?_, fun p now => ?_,
          fun pk hpk => ?_, fun pk hpk => ?_, fun pk hpk => ?_⟩
  · simp [UserProfileView_post, hb, forbiddenResp]
  · simp [TaskView_post, hb, forbiddenResp]
  · simp [AttendanceView_post, hb, forbiddenResp]
  · unfold UserProfileView_delete
    cases hg : getUser db pk with
    | none => rw [hg] at hpk; simp at hpk
    | some v => simp [hb, forbiddenResp]
  · unfold TaskView_delete
    cases hg : getTask db pk with
    | none => rw [hg] at hpk; simp at hpk
    | some v => simp [hb, forbiddenResp]
  · unfold AttendanceView_delete
    cases hg : getAttendance db pk with
    | none => rw [hg] at hpk; simp at hpk
    | some v => simp [hb, forbiddenResp]

/-- C7 witness: intern Bob can neither create a profile / task / attendance
row nor delete the existing task 10, attendance 20 or profile 1. -/
theorem C7_create_delete_supervisor_only_witness :
    UserProfileView_post internBob { username := some "eve" } 3 dbBase = (forbiddenResp, dbBase) ∧
    TaskView_post internBob { title := some "New" } 3 dbBase = (forbiddenResp, dbBase) ∧
    AttendanceView_post internBob { user := some 2 } 3 dbBase = (forbiddenResp, dbBase) ∧
    UserProfileView_delete internBob 1 dbBase = (forbiddenResp, dbBase) ∧
    TaskView_delete internBob 10 dbBase = (forbiddenResp, dbBase) ∧
    AttendanceView_delete internBob 20 dbBase = (forbiddenResp, dbBase) := by
  have h := C7_create_delete_supervisor_only internBob dbBase (by decide)
  exact ⟨h.1 { username := some "eve" } 3, h.2.1 { title := some "New" } 3,
         h.2.2.1 { user := some 2 } 3, h.2.2.2.1 1 (by decide),
         h.2.2.2.2.1 10 (by decide), h.2.2.2.2.2 20 (by decide)⟩

/-- C8: on all three entities the generic update resolves the id first —
an absent id answers 404 for every actor whatever their role, before any
policy check; when the id exists the policy check runs before validation
(an unauthorized actor gets 401 whatever the body), and validation runs
before persistence (an authorized actor with an invalid body gets 400 and
the store is unchanged). -/
theorem C8_update_check_order (actor : UserProfile) (pk : Nat) (db : DB) :
    ((getUser db pk = none → ∀ p,
        UserProfileView_put actor pk p db = (HttpStatus.notFound404, db)) ∧
     (getTask db pk = none → ∀ p,
        TaskView_put actor pk p db = (HttpStatus.notFound404, db)) ∧
     (getAttendance db pk = none → ∀ p,
        AttendanceView_put actor pk p db = (HttpStatus.notFound404, db))) ∧
    (((getUser db pk).isSome = true → actor.role ≠ Types.SUPERVISOR → ∀ p,
        UserProfileView_put actor pk p db = (forbiddenResp, db)) ∧
     (∀ task, getTask db pk = some task → actor.role ≠ Types.SUPERVISOR →
        task.assigned_to ≠ some actor.id → ∀ p,
        TaskView_put actor pk p db = (forbiddenResp, db)) ∧
     (∀ att, getAttendance db pk = some att → actor.role ≠ Types.SUPERVISOR →
        att.user ≠ actor.id → ∀ p,
        AttendanceView_put actor pk p db = (forbiddenResp, db))) ∧
    (((getUser db pk).isSome = true → actor.role = Types.SUPERVISOR →
        ∀ p, userPayloadValidForUpdate db pk p = false →
        UserProfileView_put actor pk p db = (HttpStatus.badRequest400, db)) ∧
     (∀ task, getTask db pk = some task →
        (actor.role = Types.SUPERVISOR ∨ task.assigned_to = some actor.id) →
        ∀ p, taskPayloadValid db p = false →
        TaskView_put actor pk p db = (HttpStatus.badRequest400, db)) ∧
     (∀ att, getAttendance db pk = some att →
        (actor.role = Types.SUPERVISOR ∨ att.user = actor.id) →
        ∀ p, attendancePayloadValid db p = false →
        AttendanceView_put actor pk p db = (HttpStatus.badRequest400, db))) := by
  refine ⟨⟨fun hg p => ?_, fun hg p => ?_, fun hg p => ?_⟩,
          ⟨fun hpk hrole p => ?_, fun task hg hrole hown p => ?_,
           fun att hg hrole hown p => ?_⟩,
          ⟨fun hpk hrole p hv => ?_, fun task hg hallow p hv => ?_,
           fun att hg hallow p hv => ?_⟩⟩
  · simp [UserProfileView_put, hg]
  · simp [TaskView_put, hg]
  · simp [AttendanceView_put, hg]
  · have hb : (actor.role != Types.SUPERVISOR) = true := by simpa using hrole
    unfold UserProfileView_put
    cases hg : getUser db pk with
    | none => rw [hg] at hpk; simp at hpk
    | some v => simp [hb, forbiddenResp]
  · have hcond : (actor.role != Types.SUPERVISOR &&
        task.assigned_to != some actor.id) = true := by
      simp [bne_iff_ne, hrole, hown]
    simp [TaskView_put, hg, hcond, forbiddenResp]
  · have hcond : (actor.role != Types.SUPERVISOR && att.user != actor.id) = true := by
      simp [bne_iff_ne, hrole, hown]
    simp [AttendanceView_put, hg, hcond, forbiddenResp]
  · have hb : (actor.role != Types.SUPERVISOR) = false := by simp [hrole]
    unfold UserProfileView_put
    cases hg : getUser db pk with
    | none => rw [hg] at hpk; simp at hpk
    | some v => simp [hb, hv]
  · have hcond : (actor.role != Types.SUPERVISOR &&
        task.assigned_to != some actor.id) = false := by
      rcases hallow with h | h <;> simp [h]
    simp [TaskView_put, hg, hcond, hv]
  · have hcond : (actor.role != Types.SUPERVISOR && att.user != actor.id) = false := by
      rcases hallow with h | h <;> simp [h]
    simp [AttendanceView_put, hg, hcond, hv]

/-- C8 witness: on the base store, updates of the absent id 99 answer 404
to intern Bob on all three entities; with existing ids, unauthorized Jane
gets 401 on task 10 even with an invalid body, and authorized Alice gets
400 on task 10 with a body missing the required title. -/
theorem C8_update_check_order_witness :
    UserProfileView_put internBob 99 { } dbBase = (HttpStatus.notFound404, dbBase) ∧
    TaskView_put internBob 99 { } dbBase = (HttpStatus.notFound404, dbBase) ∧
    AttendanceView_put internBob 99 { } dbBase = (HttpStatus.notFound404, dbBase) ∧
    TaskView_put internJane 10 { } dbBase = (forbiddenResp, dbBase) ∧
    TaskView_put supAlice 10 { } dbBase = (HttpStatus.badRequest400, dbBase) := by
  refine ⟨?_, ?_, ?_, ?_, ?_⟩
  · exact (C8_update_check_order internBob 99 dbBase).1.1 (by decide) { }
  · exact (C8_update_check_order internBob 99 dbBase).1.2.1 (by decide) { }
  · exact (C8_update_check_order internBob 99 dbBase).1.2.2 (by decide) { }
  · exact (C8_update_check_order internJane 10 dbBase).2.1.2.1 taskReport
      (by decide) (by decide) (by decide) { }
  · exact (C8_update_check_order supAlice 10 dbBase).2.2.2.1 taskReport
      (by decide) (Or.inl (by decide)) { } (by decide)

/-- C9: the serialized representation of a profile never carries the
`password` key; serialization is insensitive to the credential, so both the
single-row read and the list read return identical output on stores that
differ only in passwords. -/
theorem C9_password_never_serialized :
    (∀ u : UserProfile, "password" ∉ (serializeUserProfile u).map Prod.fst) ∧
    (∀ (u : UserProfile) (pw : String),
        serializeUserProfile { u with password := pw } = serializeUserProfile u) ∧
    (∀ (db : DB) (pw : String),
        UserProfileView_getAll
            { db with users := db.users.map (fun u => { u with password := pw }) } =
          UserProfileView_getAll db) ∧
    (∀ (db : DB) (pk : Nat) (pw : String),
        UserProfileView_getOne
            { db with users := db.users.map (fun u => { u with password := pw }) } pk =
          UserProfileView_getOne db pk) := by
  refine ⟨fun u => ?_, fun u pw => rfl, fun db pw => ?_, fun db pk pw => ?_⟩
  · simp [serializeUserProfile]
  · unfold UserProfileView_getAll
    simp only [List.map_map]
    rfl
  · unfold UserProfileView_getOne getUser
    simp only [List.find?_map]
    have hp : ((fun u : UserProfile => u.id == pk) ∘
        (fun u : UserProfile => { u with password := pw })) =
        (fun u : UserProfile => u.id == pk) := rfl
    rw [hp]
    cases db.users.find? (fun u => u.id == pk) with
    | none => rfl
    | some u => rfl

/-- C10: when an Intern completes a task assigned to them, the request
answers 200; each stored task keeps its id, title, description, created_at,
due_date, assigned_to, assigned_by and birth_date, the targeted task's
completion flag becomes true and every other task's flag is untouched; and
repeating the request returns the same answer on the unchanged store
(idempotence). -/
theorem C10_complete_task_frame_idempotent (actor : UserProfile) (pk : Nat)
    (db : DB) (t : Task) (hrole : actor.role = Types.INTERN)
    (ht : t ∈ db.tasks) (hid : t.id = pk) (hto : t.assigned_to = some actor.id) :
    (MarkTaskCompleteView_patch actor pk db).1 = HttpStatus.ok200 ∧
    (MarkTaskCompleteView_patch actor pk db).2.users = db.users ∧
    (MarkTaskCompleteView_patch actor pk db).2.attendances = db.attendances ∧
    (MarkTaskCompleteView_patch actor pk db).2.tasks = db.tasks.map (fun s =>
        if s.id == pk && s.assigned_to == some actor.id
        then { s with is_completed := true } else s) ∧
    { t with is_completed := true } ∈ (MarkTaskCompleteView_patch actor pk db).2.tasks ∧
    (∀ s ∈ db.tasks, ∃ s' ∈ (MarkTaskCompleteView_patch actor pk db).2.tasks,
        s'.id = s.id ∧ s'.title = s.title ∧ s'.description = s.description ∧
        s'.created_at = s.created_at ∧ s'.due_date = s.due_date ∧
        s'.assigned_to = s.assigned_to ∧ s'.assigned_by = s.assigned_by ∧
        s'.birth_date = s.birth_date ∧
        (¬(s.id = pk ∧ s.assigned_to = some actor.id) →
            s'.is_completed = s.is_completed)) ∧
    MarkTaskCompleteView_patch actor pk (MarkTaskCompleteView_patch actor pk db).2 =
      MarkTaskCompleteView_patch actor pk db := by
  have hb : (actor.role != Types.INTERN) = false := by simp [hrole]
  have hpt : (t.id == pk && t.assigned_to == some actor.id) = true := by
    simp [hid, hto]
  have hany : db.tasks.any (fun s => s.id == pk && s.assigned_to == some actor.id) = true :=
    List.any_eq_true.mpr ⟨t, ht, hpt⟩
  have hres : MarkTaskCompleteView_patch actor pk db =
      (HttpStatus.ok200,
       { db with tasks := db.tasks.map (fun s =>
           if s.id == pk && s.assigned_to == some actor.id
           then { s with is_completed := true } else s) }) := by
    simp [MarkTaskCompleteView_patch, hb, hany]
  rw [hres]
  refine ⟨rfl, rfl, rfl, rfl, ?_, ?_, ?_⟩
  · have : { t with is_completed := true } = (fun s =>
        if s.id == pk && s.assigned_to == some actor.id
        then { s with is_completed := true } else s) t := by
      simp [hpt]
    rw [this]
    exact List.mem_map_of_mem _ ht
  · intro s hs
    by_cases hc : (s.id == pk && s.assigned_to == some actor.id) = true
    · have hfs : (if s.id == pk && s.assigned_to == some actor.id
          then { s with is_completed := true } else s) = { s with is_completed := true } := by
        simp [hc]
      have hmem : { s with is_completed := true } ∈ db.tasks.map (fun s =>
          if s.id == pk && s.assigned_to == some actor.id
          then { s with is_completed := true } else s) := by
        rw [← hfs]
        exact List.mem_map_of_mem _ hs
      have hc' : s.id = pk ∧ s.assigned_to = some actor.id := by
        simpa using hc
      exact ⟨{ s with is_completed := true }, hmem, rfl, rfl, rfl, rfl, rfl, rfl, rfl, rfl,
        fun hn => absurd hc' hn⟩
    · simp only [Bool.not_eq_true] at hc
      have hfs : (if s.id == pk && s.assigned_to == some actor.id
          then { s with is_completed := true } else s) = s := by
        simp [hc]
      have hmem : s ∈ db.tasks.map (fun s =>
          if s.id == pk && s.assigned_to == some actor.id
          then { s with is_completed := true } else s) := by
        rw [← hfs]
        exact List.mem_map_of_mem _ hs
      exact ⟨s, hmem, rfl, rfl, rfl, rfl, rfl, rfl, rfl, rfl, fun _ => rfl⟩
  · have hpt2 : ({ t with is_completed := true }.id == pk &&
        { t with is_completed := true }.assigned_to == some actor.id) = true := by
      simpa using hpt
    have hany2 : (db.tasks.map (fun s =>
        if s.id == pk && s.assigned_to == some actor.id
        then { s with is_completed := true } else s)).any
        (fun s => s.id == pk && s.assigned_to == some actor.id) = true := by
      refine List.any_eq_true.mpr ⟨{ t with is_completed := true }, ?_, hpt2⟩
      have : { t with is_completed := true } = (fun s =>
          if s.id == pk && s.assigned_to == some actor.id
          then { s with is_completed := true } else s) t := by
        simp [hpt]
      rw [this]
      exact List.mem_map_of_mem _ ht
    have hmapmap : (db.tasks.map (fun s =>
        if s.id == pk && s.assigned_to == some actor.id
        then { s with is_completed := true } else s)).map (fun s =>
        if s.id == pk && s.assigned_to == some actor.id
        then { s with is_completed := true } else s) =
        db.tasks.map (fun s =>
        if s.id == pk && s.assigned_to == some actor.id
        then { s with is_completed := true } else s) := by
      rw [List.map_map]
      apply List.map_congr_left
      intro s _
      by_cases hc : (s.id == pk && s.assigned_to == some actor.id) = true
      · simp [Function.comp, hc]
      · simp only [Bool.not_eq_true] at hc
        simp [Function.comp, hc]
    simp only [MarkTaskCompleteView_patch, hb, Bool.false_eq_true, if_false, hany2, if_true]
    rw [hmapmap]

/-- C10 witness: Bob completes task 10 of the base store; the request
answers 200, the completed copy of the task is stored, and repeating the
request changes nothing. -/
theorem C10_complete_task_frame_idempotent_witness :
    (MarkTaskCompleteView_patch internBob 10 dbBase).1 = HttpStatus.ok200 ∧
    { taskReport with is_completed := true } ∈
      (MarkTaskCompleteView_patch internBob 10 dbBase).2.tasks ∧
    MarkTaskCompleteView_patch internBob 10 (MarkTaskCompleteView_patch internBob 10 dbBase).2 =
      MarkTaskCompleteView_patch internBob 10 dbBase := by
  have h := C10_complete_task_frame_idempotent internBob 10 dbBase taskReport
    (by decide) (by decide) rfl rfl
  exact ⟨h.1, h.2.2.2.2.1, h.2.2.2.2.2.2⟩

end BirthdayScheduler
